import Mathlib

/-!
Shallow embedding of the photobooth strip generator
(`src/utils/photoboothGenerator.js`), the result-screen download/share
handlers (`ResultScreen`), and the camera-screen pixel filter
(`applyFilter`).  JavaScript number arithmetic is modelled exactly over ℚ;
`Math.PI` is embedded as the exact value of its binary64 representation.
Asynchronous browser effects (canvas context acquisition, the 30 s timeout
race, canvas encoding, image decoding, the Web Share API) are modelled by
explicit environment records whose booleans state which effect succeeds.
-/

/-- Geometry record produced by the placement functions: one photo slot.
Fields mirror the object literals in `getClassicPlacements`,
`getGridPlacements` and `getPolaroidPlacements`; `isPolaroid` is absent
(hence falsy) except in the polaroid template. -/
structure Placement where
  x : ℚ
  y : ℚ
  w : ℚ
  h : ℚ
  rotation : ℚ
  borderWidth : ℚ
  borderRadius : ℚ
  isPolaroid : Bool := false
deriving Repr, DecidableEq

/-- Exact rational value of the binary64 constant `Math.PI`
(3243F6A8885A3 × 2⁻⁴⁸ region: 884279719003555 / 2⁴⁸). -/
def mathPI : ℚ := 884279719003555 / 281474976710656

/-- `getClassicPlacements(padding, headerHeight, width, height, count)`:
equal-height stacked rows, spacing 20, spanning the available width. -/
def getClassicPlacements (padding headerHeight width height : ℚ) (count : ℕ) :
    List Placement :=
  let spacing : ℚ := 20
  let photoHeight : ℚ := (height - spacing * ((count : ℚ) - 1)) / (count : ℚ)
  (List.range count).map fun (i : ℕ) =>
    { x := padding
      y := headerHeight + (i : ℚ) * (photoHeight + spacing)
      w := width
      h := photoHeight
      rotation := 0
      borderWidth := 3
      borderRadius := 12 }

/-- The fixed index → (col, row) table of `getGridPlacements`. -/
def gridPositions : List (ℕ × ℕ) := [(0, 0), (1, 0), (0, 1), (1, 1)]

/-- `getGridPlacements(padding, headerHeight, width, height, count)`:
2×2 cells, `positions.slice(0, count)` truncation. -/
def getGridPlacements (padding headerHeight width height : ℚ) (count : ℕ) :
    List Placement :=
  let gap : ℚ := 20
  let photoWidth : ℚ := (width - gap) / 2
  let photoHeight : ℚ := (height - gap) / 2
  (gridPositions.take count).map fun cr =>
    { x := padding + (cr.1 : ℚ) * (photoWidth + gap)
      y := headerHeight + (cr.2 : ℚ) * (photoHeight + gap)
      w := photoWidth
      h := photoHeight
      rotation := 0
      borderWidth := 4
      borderRadius := 8 }

/-- Hand-tuned per-index rotation angles (degrees) of `getPolaroidPlacements`. -/
def polaroidRotationsDeg : List ℚ := [-8, 5, -3, 7]

/-- Hand-tuned per-index offsets of `getPolaroidPlacements`. -/
def polaroidOffsets : List (ℚ × ℚ) := [(-30, -50), (40, -20), (-20, 60), (30, 100)]

/-- `getPolaroidPlacements(padding, headerHeight, width, height, count)`:
up to four centred overlapping cards with fixed rotations and offsets. -/
def getPolaroidPlacements (padding headerHeight width height : ℚ) (count : ℕ) :
    List Placement :=
  let polaroidWidth : ℚ := width * (7 / 10)
  let polaroidHeight : ℚ := polaroidWidth * (12 / 10)
  let centerX : ℚ := padding + width / 2
  let centerY : ℚ := headerHeight + height / 2
  (List.range (min count 4)).map fun i =>
    let off := polaroidOffsets.getD i (0, 0)
    { x := centerX - polaroidWidth / 2 + off.1
      y := centerY - polaroidHeight / 2 + off.2 - 100
      w := polaroidWidth
      h := polaroidHeight
      rotation := polaroidRotationsDeg.getD i 0 * mathPI / 180
      borderWidth := 0
      borderRadius := 4
      isPolaroid := true }

/-- `getTemplatePlacements(template, width, height, photoCount)`: header 200,
footer 150, padding 40; dispatches on the template string, `switch` default
falling through to the classic layout. -/
def getTemplatePlacements (template : String) (width height : ℚ) (photoCount : ℕ) :
    List Placement :=
  let HEADER_HEIGHT : ℚ := 200
  let FOOTER_HEIGHT : ℚ := 150
  let PADDING : ℚ := 40
  let availableHeight : ℚ := height - HEADER_HEIGHT - FOOTER_HEIGHT
  let availableWidth : ℚ := width - PADDING * 2
  if template = "grid" then
    getGridPlacements PADDING HEADER_HEIGHT availableWidth availableHeight photoCount
  else if template = "polaroid" then
    getPolaroidPlacements PADDING HEADER_HEIGHT availableWidth availableHeight photoCount
  else
    getClassicPlacements PADDING HEADER_HEIGHT availableWidth availableHeight photoCount

/-- Canvas width constant `STRIP_WIDTH` of `generatePhotoboothStrip`. -/
def STRIP_WIDTH : ℚ := 1080

/-- Canvas height constant `STRIP_HEIGHT` of `generatePhotoboothStrip`. -/
def STRIP_HEIGHT : ℚ := 1920

/-- A decoded image, as far as the drawing code observes it: its pixel
dimensions (`img.width`, `img.height`). -/
structure DecodedImage where
  width : ℚ
  height : ℚ
deriving Repr, DecidableEq

/-- Environmental outcomes of the browser effects inside
`generatePhotoboothStrip`: whether `canvas.getContext('2d')` returns a
context, whether the 30 s timeout wins the race against the photo loads,
and whether `canvas.toDataURL` yields usable data. -/
structure ComposeEnv where
  ctxAvailable : Bool
  timedOut : Bool
  encodeOk : Bool
deriving Repr, DecidableEq

/-- The rejection reasons of `generatePhotoboothStrip`. -/
inductive ComposeError
  | noPhotos
  | noContext
  | timeout
  | encodeFailure
deriving Repr, DecidableEq

/-- One successfully drawn slot: which photo index was drawn, at which
placement, from which decoded image. -/
structure DrawnSlot where
  index : ℕ
  placement : Placement
  image : DecodedImage
deriving Repr, DecidableEq

/-- Observable content of the composite strip the promise resolves with. -/
structure CompositeStrip where
  width : ℚ
  height : ℚ
  drawn : List DrawnSlot
  hasHeader : Bool
  hasFooter : Bool
deriving Repr, DecidableEq

/-- `generatePhotoboothStrip(photoDataUrls, options)`.  The photo list is
`Option`-wrapped (`none` = null/absent argument); each entry is `none` when
that data URL is falsy or fails to decode (`onerror`, or `img.src`
assignment throwing), in which case the per-photo promise resolves without
drawing and the slot stays blank. -/
def generatePhotoboothStrip (env : ComposeEnv)
    (photoDataUrls : Option (List (Option DecodedImage))) (template : String) :
    Except ComposeError CompositeStrip :=
  match photoDataUrls with
  | none => .error .noPhotos
  | some photos =>
    if photos.length = 0 then .error .noPhotos
    else if env.ctxAvailable = false then .error .noContext
    else
      let placements := getTemplatePlacements template STRIP_WIDTH STRIP_HEIGHT photos.length
      let drawn : List DrawnSlot := photos.enum.filterMap fun p =>
        match p.2 with
        | none => none
        | some img => (placements[p.1]?).map fun pl => ⟨p.1, pl, img⟩
      if env.timedOut = true then .error .timeout
      else if env.encodeOk = false then .error .encodeFailure
      else .ok ⟨STRIP_WIDTH, STRIP_HEIGHT, drawn, true, true⟩

/-- Source sub-rectangle selected by `drawCroppedImage(ctx, img, x, y,
width, height)` (the first four arguments of its `ctx.drawImage` call). -/
structure CropRect where
  sourceX : ℚ
  sourceY : ℚ
  sourceWidth : ℚ
  sourceHeight : ℚ
deriving Repr, DecidableEq

/-- The centre-crop computation of `drawCroppedImage`. -/
def computeCrop (imgWidth imgHeight width height : ℚ) : CropRect :=
  let imgAspect : ℚ := imgWidth / imgHeight
  let targetAspect : ℚ := width / height
  if imgAspect > targetAspect then
    let sourceWidth := imgHeight * targetAspect
    { sourceX := (imgWidth - sourceWidth) / 2
      sourceY := 0
      sourceWidth := sourceWidth
      sourceHeight := imgHeight }
  else
    let sourceHeight := imgWidth / targetAspect
    { sourceX := 0
      sourceY := (imgHeight - sourceHeight) / 2
      sourceWidth := imgWidth
      sourceHeight := sourceHeight }

/-- One RGBA pixel of the capture canvas (channel values 0..255). -/
structure Pixel where
  r : ℚ
  g : ℚ
  b : ℚ
  a : ℚ
deriving Repr, DecidableEq

/-- The filter selector of the camera screen (`currentFilter`). -/
inductive CameraFilter
  | none
  | bw
  | vintage
deriving Repr, DecidableEq

/-- Per-pixel body of `applyFilter`: identity for `none`, luminance
grayscale for `bw`, sepia matrix with `Math.min(255, ·)` for `vintage`;
the alpha byte (`data[i+3]`) is never touched. -/
def applyFilterPixel (filter : CameraFilter) (p : Pixel) : Pixel :=
  match filter with
  | .none => p
  | .bw =>
    let gray := p.r * 0.299 + p.g * 0.587 + p.b * 0.114
    { r := gray, g := gray, b := gray, a := p.a }
  | .vintage =>
    let tr := p.r * 0.393 + p.g * 0.769 + p.b * 0.189
    let tg := p.r * 0.349 + p.g * 0.686 + p.b * 0.168
    let tb := p.r * 0.272 + p.g * 0.534 + p.b * 0.131
    { r := min 255 tr, g := min 255 tg, b := min 255 tb, a := p.a }

/-- Way an attempted `navigator.share` call terminates when it throws. -/
inductive ShareFailure
  | abortError
  | otherError
deriving Repr, DecidableEq

/-- Environment of one `handleShare` invocation in `ResultScreen`:
presence of the strip data URL, the `shareSupported` state, existence of
`navigator.share` / `navigator.canShare`, success of the
fetch→blob→File preparation, results of the `canShare` probes
(`none` = the probe itself throws) and of the three possible
`navigator.share` calls (`none` = the call resolves). -/
structure ShareEnv where
  stripPresent : Bool
  shareSupported : Bool
  navigatorShareExists : Bool
  canShareExists : Bool
  filePrepOk : Bool
  canShareFiles : Option Bool
  shareFilesResult : Option ShareFailure
  canShareText : Option Bool
  shareTextResult : Option ShareFailure
  shareMinimalResult : Option ShareFailure
deriving Repr, DecidableEq

/-- Which user-visible action a `handleShare` run ends in. -/
inductive ShareAction
  | noop
  | downloaded
  | sharedFile
  | sharedText
  | sharedMinimal
deriving Repr, DecidableEq

/-- Result of a `handleShare` run: the final action, and whether
`console.error('Error sharing', …)` fired. -/
structure ShareOutcome where
  action : ShareAction
  errorLogged : Bool
deriving Repr, DecidableEq

/-- The file-attachment stage returns from `handleShare` iff the
preparation succeeds, `navigator.canShare` exists, the `canShare(files)`
probe returns `true` without throwing, and `navigator.share(shareData)`
resolves.  Every failure inside this stage is swallowed by the
`canShareError` / `fileShareError` catches and control falls through. -/
def fileStageShares (e : ShareEnv) : Bool :=
  e.filePrepOk && e.canShareExists &&
    (e.canShareFiles == some true && e.shareFilesResult == Option.none)

/-- The text/URL stage returns from `handleShare` iff `navigator.canShare`
exists, the `canShare(textShareData)` probe returns `true` without
throwing, and `navigator.share(textShareData)` resolves; its failures are
likewise swallowed and control falls through to the minimal share. -/
def textStageShares (e : ShareEnv) : Bool :=
  e.canShareExists && (e.canShareText == some true && e.shareTextResult == Option.none)

/-- `handleShare` of `ResultScreen`.  Note that only the last-resort
`navigator.share({text, url})` can throw out of the outer `try`; the outer
`catch` suppresses logging for `AbortError` but invokes `handleDownload()`
unconditionally. -/
def handleShare (e : ShareEnv) : ShareOutcome :=
  if e.stripPresent = false then ⟨.noop, false⟩
  else if e.shareSupported = false || e.navigatorShareExists = false then
    ⟨.downloaded, false⟩
  else if fileStageShares e then ⟨.sharedFile, false⟩
  else if textStageShares e then ⟨.sharedText, false⟩
  else
    match e.shareMinimalResult with
    | Option.none => ⟨.sharedMinimal, false⟩
    | some .abortError => ⟨.downloaded, false⟩
    | some .otherError => ⟨.downloaded, true⟩

/-- Filename built by `handleDownload` from the invocation's
`new Date().getTime()` millisecond timestamp. -/
def downloadFilename (t : ℕ) : String :=
  "new-year-photobooth-" ++ Nat.repr t ++ ".png"

/-- Classic-template placements at the actual strip dimensions used by
`generatePhotoboothStrip` (1080×1920). -/
def classicStripPlacements (n : ℕ) : List Placement :=
  getTemplatePlacements "classic" STRIP_WIDTH STRIP_HEIGHT n

/-- Grid-template placements at the actual strip dimensions. -/
def gridStripPlacements (n : ℕ) : List Placement :=
  getTemplatePlacements "grid" STRIP_WIDTH STRIP_HEIGHT n

/-- Polaroid-template placements at the actual strip dimensions. -/
def polaroidStripPlacements (n : ℕ) : List Placement :=
  getTemplatePlacements "polaroid" STRIP_WIDTH STRIP_HEIGHT n

/-- The common row height of the classic layout at the actual strip
dimensions (available band 1570 divided into `n` rows with 20 px gaps). -/
def classicPhotoHeight (n : ℕ) : ℚ :=
  (1570 - 20 * ((n : ℚ) - 1)) / (n : ℚ)

/-- The vertical extents `[y, y + h]` of two placements share no point. -/
def vertDisjoint (p q : Placement) : Prop :=
  ∀ t : ℚ, ¬(p.y ≤ t ∧ t ≤ p.y + p.h ∧ q.y ≤ t ∧ t ≤ q.y + q.h)

/-- `(tx, ty)` lies in the closed rectangle of a placement. -/
def inRect (p : Placement) (tx ty : ℚ) : Prop :=
  p.x ≤ tx ∧ tx ≤ p.x + p.w ∧ p.y ≤ ty ∧ ty ≤ p.y + p.h

/-- The closed rectangles of two placements share no point. -/
def rectDisjoint (p q : Placement) : Prop :=
  ∀ tx ty : ℚ, ¬(inRect p tx ty ∧ inRect q tx ty)

/-- Helper: every template string other than `"grid"` and `"polaroid"`
takes the `switch` default branch. -/
theorem getTemplatePlacements_default (template : String) (hg : template ≠ "grid")
    (hp : template ≠ "polaroid") (width height : ℚ) (n : ℕ) :
    getTemplatePlacements template width height n =
      getTemplatePlacements "classic" width height n := by
  simp [getTemplatePlacements, hg, hp]

/-- Helper: closed form of the classic placements at strip dimensions. -/
theorem classicStripPlacements_eq (n : ℕ) :
    classicStripPlacements n = (List.range n).map fun i =>
      { x := 40, y := 200 + (i : ℚ) * (classicPhotoHeight n + 20), w := 1000,
        h := classicPhotoHeight n, rotation := 0, borderWidth := 3,
        borderRadius := 12 } := by
  simp only [classicStripPlacements, getTemplatePlacements, getClassicPlacements,
    STRIP_WIDTH, STRIP_HEIGHT]
  rw [if_neg (by decide), if_neg (by decide)]
  refine congrArg (fun f => List.map f (List.range n)) (funext fun i => ?_)
  simp only [Placement.mk.injEq]
  norm_num [classicPhotoHeight]

/-- Helper: closed form of the grid placements at strip dimensions. -/
theorem gridStripPlacements_eq (n : ℕ) :
    gridStripPlacements n = (gridPositions.take n).map fun cr =>
      { x := 40 + (cr.1 : ℚ) * 510, y := 200 + (cr.2 : ℚ) * 795, w := 490,
        h := 775, rotation := 0, borderWidth := 4, borderRadius := 8 } := by
  simp only [gridStripPlacements, getTemplatePlacements, getGridPlacements,
    STRIP_WIDTH, STRIP_HEIGHT]
  rw [if_pos (by decide)]
  refine congrArg (fun f => List.map f (gridPositions.take n)) (funext fun cr => ?_)
  simp only [Placement.mk.injEq]
  norm_num

/-- Helper: the classic layout always yields one placement per photo. -/
theorem classicStripPlacements_length (n : ℕ) :
    (classicStripPlacements n).length = n := by
  rw [classicStripPlacements_eq, List.length_map, List.length_range]

/-- C1: `generatePhotoboothStrip` rejects with the `'No photos provided'`
error exactly when the photo list is null/absent or empty; for every
non-empty list, under every environment and template, it is never rejected
for want of photos (and an empty input is always rejected, never resolved
with any image). -/
theorem generatePhotoboothStrip_noPhotos_iff (env : ComposeEnv)
    (photoDataUrls : Option (List (Option DecodedImage))) (template : String) :
    generatePhotoboothStrip env photoDataUrls template = .error .noPhotos ↔
      photoDataUrls = none ∨ photoDataUrls = some [] := by
  obtain ⟨ctx, tmo, enc⟩ := env
  cases photoDataUrls with
  | none => simp [generatePhotoboothStrip]
  | some photos =>
    cases photos with
    | nil => simp [generatePhotoboothStrip]
    | cons a l =>
      cases ctx <;> cases tmo <;> cases enc <;>
        simp [generatePhotoboothStrip]

/-- C7: for every photo count, the classic layout returns exactly `n`
placements while the grid and polaroid layouts return `min n 4`
placements (their template-specific maximum is 4). -/
theorem placementCount_spec (n : ℕ) :
    (classicStripPlacements n).length = n ∧
    (gridStripPlacements n).length = min n 4 ∧
    (polaroidStripPlacements n).length = min n 4 := by
  refine ⟨classicStripPlacements_length n, ?_, ?_⟩
  · rw [gridStripPlacements_eq, List.length_map, List.length_take]
    simp [gridPositions]
  · simp only [polaroidStripPlacements, getTemplatePlacements,
      getPolaroidPlacements, STRIP_WIDTH, STRIP_HEIGHT]
    rw [if_neg (by decide), if_pos (by decide)]
    rw [List.length_map, List.length_range]

/-- C10: every template string other than `"grid"` and `"polaroid"`
(including `"classic"` itself and any unrecognized identifier) falls back
to the classic layout, yields a non-empty placement list whenever at least
one photo is given, and `generatePhotoboothStrip` behaves on it exactly as
on `"classic"` — it never fails because of an unknown template. -/
theorem unknownTemplate_fallback (template : String) (hg : template ≠ "grid")
    (hp : template ≠ "polaroid") (width height : ℚ) (n : ℕ) (env : ComposeEnv)
    (photos : Option (List (Option DecodedImage))) :
    getTemplatePlacements template width height n =
        getTemplatePlacements "classic" width height n ∧
    (1 ≤ n → getTemplatePlacements template STRIP_WIDTH STRIP_HEIGHT n ≠ []) ∧
    generatePhotoboothStrip env photos template =
        generatePhotoboothStrip env photos "classic" := by
  refine ⟨getTemplatePlacements_default template hg hp width height n, ?_, ?_⟩
  · intro hn
    rw [getTemplatePlacements_default template hg hp STRIP_WIDTH STRIP_HEIGHT n]
    have hlen := classicStripPlacements_length n
    rw [classicStripPlacements] at hlen
    intro hnil
    rw [hnil] at hlen
    simp at hlen
    omega
  · cases photos with
    | none => rfl
    | some l =>
      simp only [generatePhotoboothStrip,
        getTemplatePlacements_default template hg hp]

/-- C10 witness: the unrecognized template `"watercolor"` behaves exactly
like `"classic"` and yields a placement for a single photo. -/
theorem unknownTemplate_fallback_witness :
    getTemplatePlacements "watercolor" 1080 1920 1 =
        getTemplatePlacements "classic" 1080 1920 1 ∧
    (1 ≤ 1 → getTemplatePlacements "watercolor" STRIP_WIDTH STRIP_HEIGHT 1 ≠ []) ∧
    generatePhotoboothStrip ⟨true, false, true⟩ (some [some ⟨4, 3⟩]) "watercolor" =
        generatePhotoboothStrip ⟨true, false, true⟩ (some [some ⟨4, 3⟩]) "classic" :=
  unknownTemplate_fallback "watercolor" (by decide) (by decide) 1080 1920 1
    ⟨true, false, true⟩ (some [some ⟨4, 3⟩])

/-- C8: for every pixel with channels in `[0, 255]`, the `'none'` filter is
the identity; the `'bw'` filter sets all three color channels to the
luminance-weighted average `0.299·R + 0.587·G + 0.114·B`, which is within
`[0, 255]`; the `'vintage'` (sepia) filter applies the fixed 3×3 matrix
rows `(0.393, 0.769, 0.189)`, `(0.349, 0.686, 0.168)`,
`(0.272, 0.534, 0.131)` with every output channel clamped to `[0, 255]`;
and both filters leave the alpha channel unchanged. -/
theorem applyFilter_spec (p : Pixel)
    (hr0 : 0 ≤ p.r) (hr1 : p.r ≤ 255) (hg0 : 0 ≤ p.g) (hg1 : p.g ≤ 255)
    (hb0 : 0 ≤ p.b) (hb1 : p.b ≤ 255) :
    applyFilterPixel .none p = p ∧
    (applyFilterPixel .bw p).r = 0.299 * p.r + 0.587 * p.g + 0.114 * p.b ∧
    (applyFilterPixel .bw p).g = (applyFilterPixel .bw p).r ∧
    (applyFilterPixel .bw p).b = (applyFilterPixel .bw p).r ∧
    (0 ≤ (applyFilterPixel .bw p).r ∧ (applyFilterPixel .bw p).r ≤ 255) ∧
    (applyFilterPixel .bw p).a = p.a ∧
    (applyFilterPixel .vintage p).r =
      min 255 (0.393 * p.r + 0.769 * p.g + 0.189 * p.b) ∧
    (applyFilterPixel .vintage p).g =
      min 255 (0.349 * p.r + 0.686 * p.g + 0.168 * p.b) ∧
    (applyFilterPixel .vintage p).b =
      min 255 (0.272 * p.r + 0.534 * p.g + 0.131 * p.b) ∧
    (0 ≤ (applyFilterPixel .vintage p).r ∧ (applyFilterPixel .vintage p).r ≤ 255) ∧
    (0 ≤ (applyFilterPixel .vintage p).g ∧ (applyFilterPixel .vintage p).g ≤ 255) ∧
    (0 ≤ (applyFilterPixel .vintage p).b ∧ (applyFilterPixel .vintage p).b ≤ 255) ∧
    (applyFilterPixel .vintage p).a = p.a := by
  refine ⟨rfl, by simp only [applyFilterPixel]; ring, rfl, rfl,
    ⟨by simp only [applyFilterPixel]; positivity,
     by simp only [applyFilterPixel]; linarith⟩, rfl,
    by simp only [applyFilterPixel]; congr 1; ring,
    by simp only [applyFilterPixel]; congr 1; ring,
    by simp only [applyFilterPixel]; congr 1; ring,
    ⟨by simp only [applyFilterPixel]; exact le_min (by norm_num) (by positivity),
     by simp only [applyFilterPixel]; exact min_le_left _ _⟩,
    ⟨by simp only [applyFilterPixel]; exact le_min (by norm_num) (by positivity),
     by simp only [applyFilterPixel]; exact min_le_left _ _⟩,
    ⟨by simp only [applyFilterPixel]; exact le_min (by norm_num) (by positivity),
     by simp only [applyFilterPixel]; exact min_le_left _ _⟩, rfl⟩

/-- C8 witness: the filter properties instantiated at the concrete pixel
`(12, 34, 56, 78)`. -/
theorem applyFilter_spec_witness :
    applyFilterPixel .none ⟨12, 34, 56, 78⟩ = ⟨12, 34, 56, 78⟩ ∧
    (applyFilterPixel .bw ⟨12, 34, 56, 78⟩).g =
      (applyFilterPixel .bw ⟨12, 34, 56, 78⟩).r ∧
    (applyFilterPixel .vintage ⟨12, 34, 56, 78⟩).a = 78 :=
  ⟨(applyFilter_spec ⟨12, 34, 56, 78⟩ (by norm_num) (by norm_num) (by norm_num)
      (by norm_num) (by norm_num) (by norm_num)).1,
   (applyFilter_spec ⟨12, 34, 56, 78⟩ (by norm_num) (by norm_num) (by norm_num)
      (by norm_num) (by norm_num) (by norm_num)).2.2.1,
   (applyFilter_spec ⟨12, 34, 56, 78⟩ (by norm_num) (by norm_num) (by norm_num)
      (by norm_num) (by norm_num) (by norm_num)).2.2.2.2.2.2.2.2.2.2.2.2⟩

/-- C3: for every source image and target rectangle with positive
dimensions, `drawCroppedImage` selects a source sub-rectangle whose
width/height ratio equals the target's ratio exactly, whose margins are
symmetric in both dimensions (`2·sourceX + sourceWidth = imgWidth` and
`2·sourceY + sourceHeight = imgHeight`), which lies inside the source
image, and which crops only the proportionally longer dimension while
filling the full extent of the other (never letterboxing). -/
theorem drawCroppedImage_spec (imgW imgH w h : ℚ)
    (hiw : 0 < imgW) (hih : 0 < imgH) (hw : 0 < w) (hh : 0 < h) :
    (computeCrop imgW imgH w h).sourceWidth /
        (computeCrop imgW imgH w h).sourceHeight = w / h ∧
    0 < (computeCrop imgW imgH w h).sourceWidth ∧
    0 < (computeCrop imgW imgH w h).sourceHeight ∧
    (computeCrop imgW imgH w h).sourceWidth ≤ imgW ∧
    (computeCrop imgW imgH w h).sourceHeight ≤ imgH ∧
    0 ≤ (computeCrop imgW imgH w h).sourceX ∧
    0 ≤ (computeCrop imgW imgH w h).sourceY ∧
    2 * (computeCrop imgW imgH w h).sourceX +
        (computeCrop imgW imgH w h).sourceWidth = imgW ∧
    2 * (computeCrop imgW imgH w h).sourceY +
        (computeCrop imgW imgH w h).sourceHeight = imgH ∧
    (imgW / imgH > w / h → (computeCrop imgW imgH w h).sourceHeight = imgH) ∧
    (¬(imgW / imgH > w / h) → (computeCrop imgW imgH w h).sourceWidth = imgW) := by
  have hiw' : imgW ≠ 0 := ne_of_gt hiw
  have hih' : imgH ≠ 0 := ne_of_gt hih
  have hw' : w ≠ 0 := ne_of_gt hw
  have hh' : h ≠ 0 := ne_of_gt hh
  have hwh : 0 < w / h := by positivity
  unfold computeCrop
  dsimp only
  by_cases hcond : imgW / imgH > w / h
  · rw [if_pos hcond]
    have hc : w * imgH < imgW * h := by
      rw [gt_iff_lt, div_lt_div_iff hh hih] at hcond
      exact hcond
    have hsw : imgH * (w / h) ≤ imgW := by
      rw [mul_div_assoc', div_le_iff hh]
      nlinarith
    refine ⟨?_, by positivity, hih, hsw, le_refl _, ?_, le_refl _, by ring, by ring,
      fun _ => rfl, fun hc2 => absurd hcond hc2⟩
    · field_simp
      ring
    · simp only []
      linarith
  · rw [if_neg hcond]
    have hc : imgW * h ≤ w * imgH := by
      rw [gt_iff_lt, not_lt, div_le_div_iff hih hh] at hcond
      exact hcond
    have hsh : imgW / (w / h) ≤ imgH := by
      rw [div_le_iff hwh, mul_div_assoc', le_div_iff hh]
      nlinarith
    refine ⟨?_, hiw, by positivity, le_refl _, hsh, le_refl _, ?_, by ring, by ring,
      fun hc2 => absurd hc2 hcond, fun _ => rfl⟩
    · dsimp only
      rw [div_div_eq_mul_div, mul_comm, mul_div_assoc, div_self hiw', mul_one]
    · simp only []
      linarith

/-- C3 witness: the crop properties at a 400×300 source and 100×100 target
(the source is proportionally wider, so its height is kept in full). -/
theorem drawCroppedImage_spec_witness :
    (computeCrop 400 300 100 100).sourceWidth /
        (computeCrop 400 300 100 100).sourceHeight = 100 / 100 ∧
    ((400 : ℚ) / 300 > 100 / 100 → (computeCrop 400 300 100 100).sourceHeight = 300) :=
  ⟨(drawCroppedImage_spec 400 300 100 100 (by norm_num) (by norm_num)
      (by norm_num) (by norm_num)).1,
   (drawCroppedImage_spec 400 300 100 100 (by norm_num) (by norm_num)
      (by norm_num) (by norm_num)).2.2.2.2.2.2.2.2.2.1⟩

/-- Helper: indexing the classic placements. -/
theorem classicStripPlacements_getElem (n i : ℕ) (pi : Placement)
    (hpi : (classicStripPlacements n)[i]? = some pi) :
    i < n ∧ pi =
      { x := 40, y := 200 + (i : ℚ) * (classicPhotoHeight n + 20), w := 1000,
        h := classicPhotoHeight n, rotation := 0, borderWidth := 3,
        borderRadius := 12 } := by
  rw [classicStripPlacements_eq, List.getElem?_map] at hpi
  have hi : i < n := by
    by_contra hge
    rw [List.getElem?_eq_none (by simpa using hge)] at hpi
    simp at hpi
  rw [List.getElem?_range hi] at hpi
  simp only [Option.map_some', Option.some.injEq] at hpi
  exact ⟨hi, hpi.symm⟩

/-- Helper: a vertical extent that ends at least 20 below the start of the
second one (or is empty because its height is negative) is disjoint from it. -/
theorem vertDisjoint_of_sep {p q : Placement}
    (hsep : p.h + 20 ≤ q.y - p.y ∨ p.h < 0) : vertDisjoint p q := by
  intro t ht
  obtain ⟨h1, h2, h3, h4⟩ := ht
  rcases hsep with h5 | h5 <;> linarith

/-- C2: for every photo count `n ≥ 1` the classic template yields exactly
`n` placements spanning the full available width (x = padding 40 to
x + w = 1040 = canvas width − padding) with zero rotation and equal
heights; consecutive rows are exactly 20 px apart, the vertical extents
are pairwise disjoint, the first row starts at the header's bottom edge
(y = 200) and the last row ends exactly at the footer's top edge
(y + h = 1770 = 1920 − 150), so rows plus gaps exactly partition the
available vertical band. -/
theorem classicPlacements_partition (n : ℕ) (hn : 1 ≤ n) :
    (classicStripPlacements n).length = n ∧
    (∀ p ∈ classicStripPlacements n, p.x = 40 ∧ p.w = 1000 ∧ p.rotation = 0) ∧
    (∀ p ∈ classicStripPlacements n, ∀ q ∈ classicStripPlacements n, p.h = q.h) ∧
    (∀ (i : ℕ) (pi pj : Placement), (classicStripPlacements n)[i]? = some pi →
        (classicStripPlacements n)[i + 1]? = some pj →
        pj.y = pi.y + pi.h + 20) ∧
    (∀ (i j : ℕ) (pi pj : Placement), i < j →
        (classicStripPlacements n)[i]? = some pi →
        (classicStripPlacements n)[j]? = some pj → vertDisjoint pi pj) ∧
    (∀ p0 : Placement, (classicStripPlacements n)[0]? = some p0 → p0.y = 200) ∧
    (∀ plast : Placement, (classicStripPlacements n)[n - 1]? = some plast →
        plast.y + plast.h = 1770) := by
  refine ⟨classicStripPlacements_length n, ?_, ?_, ?_, ?_, ?_, ?_⟩
  · intro p hp
    rw [classicStripPlacements_eq] at hp
    obtain ⟨i, _, rfl⟩ := List.mem_map.mp hp
    exact ⟨rfl, rfl, rfl⟩
  · intro p hp q hq
    rw [classicStripPlacements_eq] at hp
    rw [classicStripPlacements_eq] at hq
    obtain ⟨i, _, rfl⟩ := List.mem_map.mp hp
    obtain ⟨j, _, rfl⟩ := List.mem_map.mp hq
    rfl
  · intro i pi pj hpi hpj
    obtain ⟨hi, rfl⟩ := classicStripPlacements_getElem n i pi hpi
    obtain ⟨hj, rfl⟩ := classicStripPlacements_getElem n (i + 1) pj hpj
    dsimp only
    push_cast
    ring
  · intro i j pi pj hij hpi hpj
    obtain ⟨hi, rfl⟩ := classicStripPlacements_getElem n i pi hpi
    obtain ⟨hj, rfl⟩ := classicStripPlacements_getElem n j pj hpj
    set z := classicPhotoHeight n with hz
    apply vertDisjoint_of_sep
    by_cases hzneg : z + 20 < 0
    · right
      dsimp only
      linarith
    · left
      dsimp only
      have h1 : (1 : ℚ) ≤ (j : ℚ) - (i : ℚ) := by
        have hcast : (i : ℚ) + 1 ≤ (j : ℚ) := by exact_mod_cast hij
        linarith
      have h2 : (0 : ℚ) ≤ z + 20 := by linarith
      nlinarith
  · intro p0 hp0
    obtain ⟨_, rfl⟩ := classicStripPlacements_getElem n 0 p0 hp0
    norm_num
  · intro plast hpl
    obtain ⟨_, rfl⟩ := classicStripPlacements_getElem n (n - 1) plast hpl
    dsimp only
    have hn0 : (n : ℚ) ≠ 0 := Nat.cast_ne_zero.mpr (by omega)
    have hcast : ((n - 1 : ℕ) : ℚ) = (n : ℚ) - 1 := by
      push_cast [Nat.cast_sub hn]
      ring
    simp only [classicPhotoHeight, hcast]
    field_simp
    ring

/-- C2 witness: the partition properties instantiated at three photos. -/
theorem classicPlacements_partition_witness :
    1 ≤ 3 ∧ (classicStripPlacements 3).length = 3 :=
  ⟨by norm_num, (classicPlacements_partition 3 (by norm_num)).1⟩

/-- Helper: rectangles separated along x are disjoint. -/
theorem rectDisjoint_of_xSep {p q : Placement}
    (h : p.x + p.w < q.x ∨ q.x + q.w < p.x) : rectDisjoint p q := by
  intro tx ty hc
  obtain ⟨⟨a1, a2, a3, a4⟩, b1, b2, b3, b4⟩ := hc
  rcases h with h5 | h5 <;> linarith

/-- Helper: rectangles separated along y are disjoint. -/
theorem rectDisjoint_of_ySep {p q : Placement}
    (h : p.y + p.h < q.y ∨ q.y + q.h < p.y) : rectDisjoint p q := by
  intro tx ty hc
  obtain ⟨⟨a1, a2, a3, a4⟩, b1, b2, b3, b4⟩ := hc
  rcases h with h5 | h5 <;> linarith

/-- C4: the grid template uses the fixed index→(col,row) mapping
0→(0,0), 1→(1,0), 2→(0,1), 3→(1,1): for 4 photos the four cells sit at
(40,200), (550,200), (40,995), (550,995) — separated by the fixed 20 px
gap (40 + 490 + 20 = 550, 200 + 775 + 20 = 995) — all of equal width 490
and equal height 775, pairwise non-overlapping; for any photo count the
placement list is the prefix of the 4-cell list truncated to the count,
unused cells simply omitted. -/
theorem gridPlacements_spec (n : ℕ) :
    gridStripPlacements n = (gridStripPlacements 4).take n ∧
    (gridStripPlacements n).length = min n 4 ∧
    ((gridStripPlacements 4).map fun p => (p.x, p.y)) =
      [(40, 200), (550, 200), (40, 995), (550, 995)] ∧
    (∀ p ∈ gridStripPlacements 4, p.w = 490 ∧ p.h = 775 ∧ p.rotation = 0) ∧
    List.Pairwise rectDisjoint (gridStripPlacements 4) := by
  refine ⟨?_, ?_, ?_, ?_, ?_⟩
  · rw [gridStripPlacements_eq, gridStripPlacements_eq, ← List.map_take,
      List.take_take]
    congr 1
    rcases le_total n 4 with hn4 | hn4
    · rw [min_eq_left hn4]
    · rw [min_eq_right hn4,
        List.take_of_length_le (by simpa [gridPositions] using hn4),
        List.take_of_length_le (by simp [gridPositions])]
  · rw [gridStripPlacements_eq, List.length_map, List.length_take]
    simp [gridPositions]
  · rw [gridStripPlacements_eq,
      List.take_of_length_le (by simp [gridPositions])]
    simp only [gridPositions, List.map_cons, List.map_nil, List.map_map]
    norm_num
  · intro p hp
    rw [gridStripPlacements_eq] at hp
    obtain ⟨cr, _, rfl⟩ := List.mem_map.mp hp
    exact ⟨rfl, rfl, rfl⟩
  · rw [gridStripPlacements_eq,
      List.take_of_length_le (by simp [gridPositions])]
    simp only [gridPositions, List.map_cons, List.map_nil]
    refine List.Pairwise.cons ?_ (List.Pairwise.cons ?_ (List.Pairwise.cons ?_
      (List.Pairwise.cons ?_ List.Pairwise.nil)))
    · intro x hx
      simp only [List.mem_cons, List.not_mem_nil, or_false] at hx
      rcases hx with rfl | rfl | rfl
      · exact rectDisjoint_of_xSep (Or.inl (by norm_num))
      · exact rectDisjoint_of_ySep (Or.inl (by norm_num))
      · exact rectDisjoint_of_xSep (Or.inl (by norm_num))
    · intro x hx
      simp only [List.mem_cons, List.not_mem_nil, or_false] at hx
      rcases hx with rfl | rfl
      · exact rectDisjoint_of_ySep (Or.inl (by norm_num))
      · exact rectDisjoint_of_ySep (Or.inl (by norm_num))
    · intro x hx
      simp only [List.mem_cons, List.not_mem_nil, or_false] at hx
      subst hx
      exact rectDisjoint_of_xSep (Or.inl (by norm_num))
    · intro x hx
      simp at hx

/-- Helper: a slot is drawn iff its photo decoded and its index has a
placement. -/
theorem generate_drawn_mem (photos : List (Option DecodedImage))
    (template : String) (s : DrawnSlot) :
    (s ∈ photos.enum.filterMap fun p =>
        match p.2 with
        | none => none
        | some img =>
          ((getTemplatePlacements template STRIP_WIDTH STRIP_HEIGHT
              photos.length)[p.1]?).map fun pl => ⟨p.1, pl, img⟩) ↔
      photos[s.index]? = some (some s.image) ∧
        (getTemplatePlacements template STRIP_WIDTH STRIP_HEIGHT
            photos.length)[s.index]? = some s.placement := by
  constructor
  · intro hs
    obtain ⟨⟨i, po⟩, hmem, hf⟩ := List.mem_filterMap.mp hs
    cases po with
    | none => simp at hf
    | some img =>
      rcases hpl : (getTemplatePlacements template STRIP_WIDTH STRIP_HEIGHT
          photos.length)[i]? with _ | pl
      · rw [hpl] at hf
        simp at hf
      · rw [hpl] at hf
        simp only [Option.map_some', Option.some.injEq] at hf
        subst hf
        have := List.mk_mem_enum_iff_getElem?.mp hmem
        exact ⟨this, hpl⟩
  · intro ⟨h1, h2⟩
    refine List.mem_filterMap.mpr ⟨(s.index, some s.image), ?_, ?_⟩
    · exact List.mk_mem_enum_iff_getElem?.mpr h1
    · rw [h2]
      rfl

/-- C5: if the environment lets the composition complete (context
available, no timeout, encode succeeds) and the photo list is non-empty,
then even when the photo at index `k` fails to decode, the promise still
resolves with a complete strip (header and footer drawn): the failed
photo's slot is simply skipped, while every photo that decoded and has a
placement is drawn. -/
theorem generate_partial_success (env : ComposeEnv)
    (photos : List (Option DecodedImage)) (template : String) (k : ℕ)
    (hctx : env.ctxAvailable = true) (htime : env.timedOut = false)
    (henc : env.encodeOk = true) (hne : photos ≠ [])
    (hfail : photos[k]? = some none) :
    ∃ strip : CompositeStrip,
      generatePhotoboothStrip env (some photos) template = .ok strip ∧
      strip.hasHeader = true ∧ strip.hasFooter = true ∧
      (∀ s ∈ strip.drawn, s.index ≠ k) ∧
      (∀ (j : ℕ) (img : DecodedImage) (pl : Placement),
          photos[j]? = some (some img) →
          (getTemplatePlacements template STRIP_WIDTH STRIP_HEIGHT
              photos.length)[j]? = some pl →
          (⟨j, pl, img⟩ : DrawnSlot) ∈ strip.drawn) := by
  obtain ⟨ctx, tmo, enc⟩ := env
  simp only at hctx htime henc
  subst hctx htime henc
  have hgen : generatePhotoboothStrip ⟨true, false, true⟩ (some photos) template =
      .ok ⟨STRIP_WIDTH, STRIP_HEIGHT,
        photos.enum.filterMap (fun p =>
          match p.2 with
          | none => none
          | some img =>
            ((getTemplatePlacements template STRIP_WIDTH STRIP_HEIGHT
                photos.length)[p.1]?).map fun pl => ⟨p.1, pl, img⟩),
        true, true⟩ := by
    simp only [generatePhotoboothStrip]
    rw [if_neg (by simpa using hne), if_neg (by decide), if_neg (by decide),
      if_neg (by decide)]
  refine ⟨_, hgen, rfl, rfl, ?_, ?_⟩
  · intro s hs heq
    have hmem := (generate_drawn_mem photos template s).mp hs
    rw [heq, hfail] at hmem
    simp at hmem
  · intro j img pl h1 h2
    exact (generate_drawn_mem photos template ⟨j, pl, img⟩).mpr ⟨h1, h2⟩

/-- C5 witness: a two-photo list whose second photo fails to decode still
composes successfully, skipping slot 1 and drawing slot 0. -/
theorem generate_partial_success_witness :
    ∃ strip : CompositeStrip,
      generatePhotoboothStrip ⟨true, false, true⟩
          (some [some ⟨4, 3⟩, none]) "classic" = .ok strip ∧
      strip.hasHeader = true ∧ strip.hasFooter = true ∧
      (∀ s ∈ strip.drawn, s.index ≠ 1) ∧
      (∀ (j : ℕ) (img : DecodedImage) (pl : Placement),
          ([some ⟨4, 3⟩, none] : List (Option DecodedImage))[j]? =
            some (some img) →
          (getTemplatePlacements "classic" STRIP_WIDTH STRIP_HEIGHT
              ([some ⟨4, 3⟩, none] : List (Option DecodedImage)).length)[j]? =
            some pl →
          (⟨j, pl, img⟩ : DrawnSlot) ∈ strip.drawn) :=
  generate_partial_success ⟨true, false, true⟩ [some ⟨4, 3⟩, none] "classic" 1
    rfl rfl rfl (by simp) rfl

/-- C6 counterexample: an environment where the user explicitly cancels
the (reached) last-resort share with `AbortError`.  The claim says such a
cancellation is silent and does **not** trigger the download fallback, but
`handleShare`'s outer catch invokes `handleDownload()` unconditionally —
only the `console.error` logging is suppressed — so the run ends in a
download. -/
theorem handleShare_abort_downloads :
    (handleShare ⟨true, true, true, true, true, some false, none, some false,
        none, some .abortError⟩).action = ShareAction.downloaded ∧
    (handleShare ⟨true, true, true, true, true, some false, none, some false,
        none, some .abortError⟩).errorLogged = false := by
  constructor <;> rfl

/-- C6 amended: when a strip is present, an unsupported platform falls
back directly to download; failures at the file-attachment or text/URL
stages cascade to the next share attempt rather than downloading; any
error escaping the final share attempt — **including** `AbortError` user
cancellation — triggers the download fallback, with cancellation silent
only in that no error is logged; and a download can otherwise only happen
when the final attempt was reached and threw. -/
theorem handleShare_fallback_spec (e : ShareEnv) (hstrip : e.stripPresent = true) :
    ((e.shareSupported = false ∨ e.navigatorShareExists = false) →
        handleShare e = ⟨.downloaded, false⟩) ∧
    (e.shareSupported = true → e.navigatorShareExists = true →
      (fileStageShares e = true → handleShare e = ⟨.sharedFile, false⟩) ∧
      (fileStageShares e = false → textStageShares e = true →
          handleShare e = ⟨.sharedText, false⟩) ∧
      (fileStageShares e = false → textStageShares e = false →
          e.shareMinimalResult = none → handleShare e = ⟨.sharedMinimal, false⟩) ∧
      (fileStageShares e = false → textStageShares e = false →
          e.shareMinimalResult = some .abortError →
          handleShare e = ⟨.downloaded, false⟩) ∧
      (fileStageShares e = false → textStageShares e = false →
          e.shareMinimalResult = some .otherError →
          handleShare e = ⟨.downloaded, true⟩) ∧
      ((handleShare e).action = .downloaded → e.shareMinimalResult ≠ none)) := by
  constructor
  · intro hun
    rcases hun with hs | hn
    · simp [handleShare, hstrip, hs]
    · simp [handleShare, hstrip, hn]
  · intro hs hn
    refine ⟨?_, ?_, ?_, ?_, ?_, ?_⟩
    · intro hf
      simp [handleShare, hstrip, hs, hn, hf]
    · intro hf ht
      simp [handleShare, hstrip, hs, hn, hf, ht]
    · intro hf ht hm
      simp [handleShare, hstrip, hs, hn, hf, ht, hm]
    · intro hf ht hm
      simp [handleShare, hstrip, hs, hn, hf, ht, hm]
    · intro hf ht hm
      simp [handleShare, hstrip, hs, hn, hf, ht, hm]
    · intro hd hm
      rcases hf : fileStageShares e with _ | _
      · rcases ht : textStageShares e with _ | _
        · simp [handleShare, hstrip, hs, hn, hf, ht, hm] at hd
        · simp [handleShare, hstrip, hs, hn, hf, ht] at hd
      · simp [handleShare, hstrip, hs, hn, hf] at hd

/-- C6 amended witness: an unsupported platform (no `navigator.share`)
falls back to download without logging. -/
theorem handleShare_fallback_spec_witness :
    handleShare ⟨true, false, false, false, false, none, none, none, none,
        none⟩ = ⟨.downloaded, false⟩ :=
  (handleShare_fallback_spec ⟨true, false, false, false, false, none, none,
      none, none, none⟩ rfl).1 (Or.inl rfl)

/-- Helper: `Nat.digitChar` is injective below 10. -/
theorem digitChar_inj_lt : ∀ a < 10, ∀ b < 10,
    Nat.digitChar a = Nat.digitChar b → a = b := by decide

/-- Helper: mapping `Nat.digitChar` over digit lists is injective. -/
theorem map_digitChar_inj : ∀ l1 l2 : List ℕ, (∀ x ∈ l1, x < 10) →
    (∀ x ∈ l2, x < 10) → l1.map Nat.digitChar = l2.map Nat.digitChar →
    l1 = l2 := by
  intro l1
  induction l1 with
  | nil =>
    intro l2 _ _ h
    cases l2 with
    | nil => rfl
    | cons b t2 => simp at h
  | cons a t ih =>
    intro l2 h1 h2 h
    cases l2 with
    | nil => simp at h
    | cons b t2 =>
      simp only [List.map_cons, List.cons.injEq] at h
      have hab := digitChar_inj_lt a (h1 a (by simp)) b (h2 b (by simp)) h.1
      subst hab
      rw [ih t2 (fun x hx => h1 x (by simp [hx]))
        (fun x hx => h2 x (by simp [hx])) h.2]

/-- Helper: with enough fuel, `Nat.toDigitsCore` produces the base-10
digits (most significant first) in front of the accumulator. -/
theorem toDigitsCore_eq_digits (fuel : ℕ) : ∀ (n : ℕ) (ds : List Char),
    0 < n → n < fuel →
    Nat.toDigitsCore 10 fuel n ds =
      ((Nat.digits 10 n).map Nat.digitChar).reverse ++ ds := by
  induction fuel with
  | zero =>
    intro n ds h0 hf
    exact absurd hf (Nat.not_lt_zero n)
  | succ fuel ih =>
    intro n ds h0 hf
    rw [Nat.toDigitsCore]
    by_cases hq : n / 10 = 0
    · rw [if_pos hq, Nat.digits_def' (by norm_num : (1 : ℕ) < 10) h0, hq,
        Nat.digits_zero]
      simp
    · rw [if_neg hq]
      have h0' : 0 < n / 10 := Nat.pos_of_ne_zero hq
      have hf' : n / 10 < fuel := by
        have hlt : n / 10 < n := Nat.div_lt_self h0 (by norm_num)
        omega
      rw [ih (n / 10) _ h0' hf',
        Nat.digits_def' (by norm_num : (1 : ℕ) < 10) h0]
      simp [List.append_assoc]

/-- Helper: `Nat.toDigits 10` in terms of `Nat.digits`. -/
theorem toDigits10_eq (n : ℕ) : Nat.toDigits 10 n =
    if n = 0 then ['0'] else ((Nat.digits 10 n).map Nat.digitChar).reverse := by
  by_cases h : n = 0
  · rw [if_pos h, h]
    rfl
  · rw [if_neg h]
    unfold Nat.toDigits
    rw [toDigitsCore_eq_digits (n + 1) n [] (Nat.pos_of_ne_zero h)
      (Nat.lt_succ_self n)]
    simp

/-- Helper: the decimal representation `Nat.repr` is injective. -/
theorem natRepr_injective : Function.Injective Nat.repr := by
  intro m n h
  have hl : Nat.toDigits 10 m = Nat.toDigits 10 n := by
    simpa [List.asString] using congrArg String.data h
  rw [toDigits10_eq, toDigits10_eq] at hl
  by_cases hm0 : m = 0 <;> by_cases hn0 : n = 0
  · rw [hm0, hn0]
  · exfalso
    rw [if_pos hm0, if_neg hn0] at hl
    have hlen := congrArg List.length hl
    simp at hlen
    obtain ⟨d, hd⟩ := List.length_eq_one.mp hlen.symm
    rw [hd] at hl
    simp at hl
    have hd10 : d < 10 := Nat.digits_lt_base (by norm_num)
      (by rw [hd]; exact List.mem_singleton_self d)
    have hd0 : (0 : ℕ) = d := digitChar_inj_lt 0 (by norm_num) d hd10 hl
    have hnd : n = d := by
      conv_lhs => rw [← Nat.ofDigits_digits 10 n, hd]
      simp [Nat.ofDigits]
    omega
  · exfalso
    rw [if_neg hm0, if_pos hn0] at hl
    have hlen := congrArg List.length hl
    simp at hlen
    obtain ⟨d, hd⟩ := List.length_eq_one.mp hlen
    rw [hd] at hl
    simp at hl
    have hd10 : d < 10 := Nat.digits_lt_base (by norm_num)
      (by rw [hd]; exact List.mem_singleton_self d)
    have hd0 : d = 0 := digitChar_inj_lt d hd10 0 (by norm_num) hl
    have hmd : m = d := by
      conv_lhs => rw [← Nat.ofDigits_digits 10 m, hd]
      simp [Nat.ofDigits]
    omega
  · rw [if_neg hm0, if_neg hn0] at hl
    have hmap := List.reverse_injective hl
    have hdig := map_digitChar_inj _ _
      (fun x hx => Nat.digits_lt_base (by norm_num) hx)
      (fun x hx => Nat.digits_lt_base (by norm_num) hx) hmap
    calc m = Nat.ofDigits 10 (Nat.digits 10 m) := (Nat.ofDigits_digits 10 m).symm
    _ = Nat.ofDigits 10 (Nat.digits 10 n) := by rw [hdig]
    _ = n := Nat.ofDigits_digits 10 n

/-- Helper: the download filename determines the timestamp. -/
theorem downloadFilename_injective : Function.Injective downloadFilename := by
  intro t1 t2 h
  unfold downloadFilename at h
  have hd := congrArg String.data h
  simp only [String.data_append] at hd
  have h2 := List.append_cancel_left (List.append_cancel_right hd)
  exact natRepr_injective (String.ext h2)

/-- C9 counterexample: two distinct rapid invocations of `handleDownload`
can fall in the same millisecond, in which case `new Date().getTime()`
returns the same value for both and the generated filenames coincide —
the schedule whose two invocations both read timestamp 1735689600000
yields a duplicated filename, refuting pairwise distinctness. -/
theorem downloadFilename_collision :
    ([1735689600000, 1735689600000].map downloadFilename)[0]? =
      ([1735689600000, 1735689600000].map downloadFilename)[1]? ∧
    ¬ ([1735689600000, 1735689600000].map downloadFilename).Nodup := by
  constructor
  · rfl
  · simp

/-- C9 amended: the timestamp-based filenames of distinct `handleDownload`
invocations are pairwise distinct **provided** the invocations read
distinct millisecond timestamps (the filename is injective in the
timestamp); invocations within the same millisecond collide. -/
theorem downloadFilename_unique_of_distinct_times (ts : List ℕ)
    (h : ts.Nodup) : (ts.map downloadFilename).Nodup :=
  h.map downloadFilename_injective

/-- C9 amended witness: two invocations one millisecond apart get
distinct filenames. -/
theorem downloadFilename_unique_witness :
    ([1735689600000, 1735689600001].map downloadFilename).Nodup :=
  downloadFilename_unique_of_distinct_times [1735689600000, 1735689600001]
    (by decide)
